import Mathlib

/-!
Verification development for the Sentinel article-enrichment pipeline
(`backend-api/sentinel_core/dashboard/utils.py`, `views.py`, `models.py`,
and `nlp-models/ner_service.py`).

Modelling conventions:
* Python strings are Lean `String`s; character-level operations work on
  `String.data : List Char`.
* Python floats are modelled as rationals (`ℚ`).  The only float
  comparison in the translated code, `french_score > english_score * 1.5`
  over small non-negative integer scores, is exact in IEEE double
  precision and is rendered as `3 * english_score < 2 * french_score`.
* Python's `str.lower` is modelled with `Char.toLower` (ASCII); every
  non-ASCII character appearing in the translated tables is already
  lower-case, so the two agree on all inputs the development touches.
* JSON objects returned by the external HTTP services are modelled as
  association lists `List (String × String)`; `none` at the service
  boundary models a timeout, connection error, or non-200 response.
  (The numeric `processing_time` members, which no claim mentions, are
  carried as their literal text.)
-/

/-! ## Python string primitives -/

/-- The whitespace characters recognised by Python's `str.split()` /
`str.strip()` (ASCII part; Unicode spaces do not occur in the sources). -/
def isPySpace (c : Char) : Bool :=
  c == ' ' || c == '\t' || c == '\n' || c == '\r' || c == '\x0b' || c == '\x0c'

/-- `str.lower()` on the character list of a string. -/
def lowerL (l : List Char) : List Char := l.map Char.toLower

/-- `str.strip()` on the character list of a string. -/
def stripL (l : List Char) : List Char :=
  ((l.dropWhile isPySpace).reverse.dropWhile isPySpace).reverse

/-- Worker for `str.split()`: accumulates the current word (reversed) and
splits on whitespace runs, discarding empty pieces. -/
def splitAux : List Char → List Char → List (List Char)
  | [], acc => if acc.isEmpty then [] else [acc.reverse]
  | c :: cs, acc =>
    if isPySpace c then
      if acc.isEmpty then splitAux cs [] else acc.reverse :: splitAux cs []
    else
      splitAux cs (c :: acc)

/-- Python `str.split()` (no argument): whitespace-separated words. -/
def splitWordsL (l : List Char) : List (List Char) := splitAux l []

/-- Does `needle` occur as a prefix of `hay`?  (Helper for substring
containment.) -/
def hasPrefixL : List Char → List Char → Bool
  | [], _ => true
  | _ :: _, [] => false
  | n :: ns, h :: hs => n == h && hasPrefixL ns hs

/-- Python's substring test `needle in hay` on character lists. -/
def containsSubL (needle : List Char) : List Char → Bool
  | [] => hasPrefixL needle []
  | h :: hs => hasPrefixL needle (h :: hs) || containsSubL needle hs

/-- Python's substring test `needle in hay` on strings. -/
def pyInStr (needle hay : String) : Bool := containsSubL needle.data hay.data

/-- `str.lower()` on strings. -/
def pyLower (s : String) : String := String.mk (lowerL s.data)

/-- `str.strip()` on strings. -/
def pyStrip (s : String) : String := String.mk (stripL s.data)

/-- `dict.get(key, default)` on a string-valued JSON object modelled as an
association list (first binding wins, as in a Python dict). -/
def pyDictGetD (d : List (String × String)) (key dflt : String) : String :=
  match d.find? (fun p => p.1 == key) with
  | some p => p.2
  | none => dflt

/-- A named entity as exchanged in JSON between the NER service and the
dashboard (`ner_service.py` `EntityItem`, consumed by `utils.py` and
`views.py`): span text, category, confidence, character offsets.
Offsets are `Int` (Python ints; a merged entity's `end` is whatever the
source arithmetic produces) and confidence is `ℚ` (float modelled as
rational). -/
structure Entity where
  word : String
  entity_group : String
  confidence : ℚ
  start : Int
  end_ : Int
deriving DecidableEq

/-! ## `dashboard/utils.py` -/

namespace DashboardUtils

/-- French indicator words of `detect_language` (utils.py lines 37-43),
category by category, in source order. -/
def french_indicators : List (List (List Char)) :=
  [ (["le", "la", "les", "un", "une", "des", "du", "de"].map String.data),
    (["dans", "pour", "avec", "sur", "sous", "par", "sans"].map String.data),
    (["et", "ou", "mais", "donc", "car", "ni"].map String.data),
    (["est", "sont", "avoir", "être", "faire", "aller", "voir"].map String.data),
    (["je", "tu", "il", "elle", "nous", "vous", "ils", "elles"].map String.data) ]

/-- English indicator words of `detect_language` (utils.py lines 46-52). -/
def english_indicators : List (List (List Char)) :=
  [ (["the", "a", "an"].map String.data),
    (["in", "on", "at", "for", "with", "by", "from", "to", "of"].map String.data),
    (["and", "or", "but", "so", "yet", "nor"].map String.data),
    (["is", "are", "have", "has", "will", "would", "could", "should"].map String.data),
    (["i", "you", "he", "she", "we", "they", "it", "this", "that"].map String.data) ]

/-- `french_score` / `english_score` of `detect_language`: the sum over
categories of the number of words of the text that are members of the
category's list (each occurrence of a word counts in each category that
lists it, exactly as the Python double loop does). -/
def scoreAgainst (cats : List (List (List Char))) (words : List (List Char)) : Nat :=
  (cats.map (fun cat => words.countP (fun w => cat.contains w))).sum

/-- `detect_language` (utils.py lines 17-70).  `'auto'` for empty or short
input; otherwise indicator scoring with the asymmetric French bias
`french_score > english_score * 1.5`, rendered exactly as
`3 * english_score < 2 * french_score`. -/
def detect_language (text : String) : String :=
  if text.data.isEmpty || (stripL text.data).length < 10 then "auto"
  else
    let words := splitWordsL (stripL (lowerL text.data))
    if words.length < 5 then "auto"
    else
      let french_score := scoreAgainst french_indicators words
      let english_score := scoreAgainst english_indicators words
      if 3 * english_score < 2 * french_score then "fr"
      else if french_score < english_score then "en"
      else "auto"

/-- A latitude/longitude pair, as the `{'latitude': …, 'longitude': …}`
dictionaries of `geocode_location`. -/
structure Coord where
  latitude : ℚ
  longitude : ℚ
deriving DecidableEq

/-- The static gazetteer `location_database` of `geocode_location`
(utils.py lines 155-211), as an association list in the dict's insertion
order (which is Python's iteration order). -/
def location_database : List (String × Coord) :=
  [ ("yaoundé", ⟨3.8480, 11.5021⟩),
    ("yaounde", ⟨3.8480, 11.5021⟩),
    ("douala", ⟨4.0511, 9.7679⟩),
    ("bamenda", ⟨5.9631, 10.1591⟩),
    ("bafoussam", ⟨5.4781, 10.4167⟩),
    ("garoua", ⟨9.3265, 13.3971⟩),
    ("maroua", ⟨10.5969, 14.3197⟩),
    ("ngaoundéré", ⟨7.3167, 13.5833⟩),
    ("ngaoundere", ⟨7.3167, 13.5833⟩),
    ("bertoua", ⟨4.5777, 13.6836⟩),
    ("buea", ⟨4.1559, 9.2928⟩),
    ("limbe", ⟨4.0186, 9.2105⟩),
    ("kumba", ⟨4.6371, 9.4469⟩),
    ("edea", ⟨3.7969, 10.1350⟩),
    ("loum", ⟨4.7181, 9.7336⟩),
    ("nkongsamba", ⟨4.9547, 9.9386⟩),
    ("foumban", ⟨5.7269, 10.9004⟩),
    ("tiko", ⟨4.0719, 9.3606⟩),
    ("kribi", ⟨2.9394, 9.9078⟩),
    ("sangmelima", ⟨2.9294, 11.9981⟩),
    ("ebolowa", ⟨2.9156, 11.1544⟩),
    ("mbalmayo", ⟨3.5186, 11.5036⟩),
    ("akonolinga", ⟨3.7731, 12.2506⟩),
    ("adamawa", ⟨7.3167, 13.5833⟩),
    ("centre", ⟨3.8480, 11.5021⟩),
    ("east", ⟨4.5777, 13.6836⟩),
    ("far north", ⟨10.5969, 14.3197⟩),
    ("littoral", ⟨4.0511, 9.7679⟩),
    ("north", ⟨9.3265, 13.3971⟩),
    ("northwest", ⟨5.9631, 10.1591⟩),
    ("north-west", ⟨5.9631, 10.1591⟩),
    ("south", ⟨2.9156, 11.1544⟩),
    ("southwest", ⟨4.1559, 9.2928⟩),
    ("south-west", ⟨4.1559, 9.2928⟩),
    ("west", ⟨5.4781, 10.4167⟩),
    ("extrême-nord", ⟨10.5969, 14.3197⟩),
    ("nord-ouest", ⟨5.9631, 10.1591⟩),
    ("sud-ouest", ⟨4.1559, 9.2928⟩),
    ("cameroon", ⟨3.8480, 11.5021⟩),
    ("cameroun", ⟨3.8480, 11.5021⟩),
    ("nigeria", ⟨9.0820, 8.6753⟩),
    ("chad", ⟨15.4542, 18.7322⟩),
    ("tchad", ⟨15.4542, 18.7322⟩),
    ("central african republic", ⟨6.6111, 20.9394⟩),
    ("equatorial guinea", ⟨1.6508, 10.2679⟩),
    ("gabon", ⟨-0.8037, 11.6094⟩) ]

/-- Exact dictionary lookup (`location_key in location_database` followed
by indexing), first binding wins. -/
def exactLookup (key : String) (table : List (String × Coord)) : Option Coord :=
  (table.find? (fun p => p.1 == key)).map (fun p => p.2)

/-- The partial-matching fallback loop of `geocode_location` (utils.py
lines 221-223): the first table entry, in iteration order, whose key is a
substring of the name or of which the name is a substring. -/
def partialLookup (key : String) (table : List (String × Coord)) : Option Coord :=
  (table.find? (fun p => pyInStr p.1 key || pyInStr key p.1)).map (fun p => p.2)

/-- `geocode_location` (utils.py lines 141-228): normalise with
`lower().strip()`, exact lookup first, then the either-direction substring
fallback, and `None` ("not found", merely logged) when both miss. -/
def geocode_location (location_name : String) : Option Coord :=
  let location_key := pyStrip (pyLower location_name)
  match exactLookup location_key location_database with
  | some coords => some coords
  | none =>
    match partialLookup location_key location_database with
    | some coords => some coords
    | none => none

/-- The `critical_keywords` list of `classify_article_priority`
(utils.py lines 328-331). -/
def critical_keywords : List String :=
  ["attack", "bomb", "explosion", "terrorist", "boko haram",
   "ambush", "kidnap", "hostage", "emergency", "crisis"]

/-- The `high_priority_keywords` list of `classify_article_priority`
(utils.py lines 333-336). -/
def high_priority_keywords : List String :=
  ["military", "army", "security", "police", "operation",
   "conflict", "violence", "protest", "strike", "unrest"]

/-- The `article_data` dictionary consumed by `classify_article_priority`:
the keys it reads, with the `.get` defaults standing for absent keys. -/
structure ArticleData where
  translated_text : String
  raw_text : String
  entities : List Entity
deriving DecidableEq

/-- `classify_article_priority` (utils.py lines 317-359), translated
exactly.  The first classification rule at line 352 reads
`critical_count >= 2 or any('boko haram' in text_lower, 'terrorist' in text_lower)`:
Python's `or` short-circuits, so when `critical_count >= 2` the function
returns 1, but otherwise the `any(...)` call is evaluated, and `any`
applied to two positional arguments raises
`TypeError: any() takes exactly one argument (2 given)`.  The `elif`
chain below line 352 is therefore unreachable, which is why the
translation ends at the uncaught `TypeError`.  The quantities the source
computes before line 352 that still influence the reachable behaviour
are translated; `high_count` and the entity filters only feed the
unreachable branches. -/
def classify_article_priority (article_data : ArticleData) : Except String Nat :=
  let text_to_analyze :=
    if article_data.translated_text ≠ "" then article_data.translated_text
    else article_data.raw_text
  let text_lower := pyLower text_to_analyze
  let critical_count := critical_keywords.countP (fun keyword => pyInStr keyword text_lower)
  if 2 ≤ critical_count then Except.ok 1
  else Except.error "any() takes exactly one argument (2 given)"

/-- Modelled from the spec: the intended reading of
`classify_article_priority` per §4.7 and §9 of the specification, which
treats the malformed `any(...)` expression as "text contains
`'boko haram'` OR `'terrorist'`".  Identical to the source otherwise. -/
def classify_article_priority_spec (article_data : ArticleData) : Nat :=
  let text_to_analyze :=
    if article_data.translated_text ≠ "" then article_data.translated_text
    else article_data.raw_text
  let text_lower := pyLower text_to_analyze
  let critical_count := critical_keywords.countP (fun keyword => pyInStr keyword text_lower)
  let high_count := high_priority_keywords.countP (fun keyword => pyInStr keyword text_lower)
  let person_entities := article_data.entities.filter (fun e => e.entity_group == "PERSON")
  let org_entities := article_data.entities.filter (fun e => e.entity_group == "ORGANIZATION")
  if 2 ≤ critical_count || pyInStr "boko haram" text_lower || pyInStr "terrorist" text_lower then 1
  else if 1 ≤ critical_count || 3 ≤ high_count then 2
  else if 1 ≤ high_count || 3 ≤ person_entities.length || 2 ≤ org_entities.length then 3
  else 4

end DashboardUtils

/-! ## `nlp-models/ner_service.py` -/

namespace NerService

/-- The merge test of `merge_adjacent_entities` (ner_service.py lines
204-205): same category, and the accumulator's end offset is within 2
characters of the next entity's start
(`current_entity['end'] >= next_entity['start'] - 2`). -/
def mergeCond (current_entity next_entity : Entity) : Bool :=
  current_entity.entity_group == next_entity.entity_group &&
    next_entity.start - 2 ≤ current_entity.end_

/-- The merge action (ner_service.py lines 208-211): concatenate the
words with one space, keep the accumulator's category and start, extend
`end` to the next entity's end, average the confidences. -/
def mergeTwo (current_entity next_entity : Entity) : Entity :=
  { word := current_entity.word ++ " " ++ next_entity.word,
    entity_group := current_entity.entity_group,
    confidence := (current_entity.confidence + next_entity.confidence) / 2,
    start := current_entity.start,
    end_ := next_entity.end_ }

/-- The left-to-right pass of `merge_adjacent_entities` with the running
accumulator `current_entity`. -/
def mergeLoop (current_entity : Entity) : List Entity → List Entity
  | [] => [current_entity]
  | next_entity :: rest =>
    if mergeCond current_entity next_entity then
      mergeLoop (mergeTwo current_entity next_entity) rest
    else
      current_entity :: mergeLoop next_entity rest

/-- `merge_adjacent_entities` (ner_service.py lines 189-220): empty input
is returned unchanged; otherwise the left-to-right single pass seeded
with the first entity. -/
def merge_adjacent_entities : List Entity → List Entity
  | [] => []
  | first :: rest => mergeLoop first rest

/-- Stable insertion into a start-sorted list: the new element goes
before the first element whose start is not smaller, so elements with
equal starts keep their original relative order. -/
def insertByStart (e : Entity) : List Entity → List Entity
  | [] => [e]
  | x :: xs => if x.start < e.start then x :: insertByStart e xs else e :: x :: xs

/-- The stable sort `final_entities.sort(key=lambda x: x['start'])`
applied by `analyze_entities` (ner_service.py line 267).  Python's
`list.sort` is a stable sort on the key; this stable insertion sort has
the same input/output behaviour. -/
def sortByStart (l : List Entity) : List Entity :=
  l.foldr insertByStart []

/-- The entity post-processing of `analyze_entities` (ner_service.py
lines 263-267): merge adjacent entities, then sort by start position. -/
def finalEntities (processed_entities : List Entity) : List Entity :=
  sortByStart (merge_adjacent_entities processed_entities)

end NerService

/-! ## `dashboard/models.py` -/

namespace DashboardModels

/-- The `processed_json` results map of `NewsArticle`: the keys the
pipeline ever writes (`translation`, `entities`, `error`), each absent
(`none`) until its stage stores it.  `translation` holds the parsed JSON
object of the translation response; `entities` holds the parsed NER
response. -/
structure NerResponse where
  entities : List Entity
  entity_count : Int
deriving DecidableEq

/-- See `NerResponse`; this is the `processed_json` dictionary itself. -/
structure Results where
  translation : Option (List (String × String))
  entities : Option NerResponse
  error : Option String
deriving DecidableEq

/-- Python truthiness of the `processed_json` dict: truthy iff some key
is present. -/
def Results.isEmptyDict (r : Results) : Bool :=
  r.translation.isNone && r.entities.isNone && r.error.isNone

/-- The empty `processed_json` map, the `default=dict` of a fresh
`NewsArticle`. -/
def Results.emptyDict : Results := ⟨none, none, none⟩

/-- The fields of `NewsArticle` (models.py lines 20-199) that the
pipeline reads or writes.  `location` stores the latitude/longitude of
`set_coordinates` (the `Point(longitude, latitude)` construction never
fails on rational inputs, so the `try/except` there is not modelled). -/
structure Article where
  raw_text : String
  language : String
  processing_status : String
  entity_count : Int
  location : Option DashboardUtils.Coord
  processed_json : Results
deriving DecidableEq

/-- A fresh `NewsArticle` as created by `ProcessArticleView.post` before
processing: default `language`, status `pending`, empty results map. -/
def freshArticle (raw_text : String) : Article :=
  { raw_text := raw_text,
    language := "unknown",
    processing_status := "pending",
    entity_count := 0,
    location := none,
    processed_json := Results.emptyDict }

/-- `NewsArticle.mark_processing_failed` (models.py lines 269-274): set
the status to `failed`, and attach the error message under
`processed_json['error']` only when BOTH the message and the current
`processed_json` dict are truthy
(`if error_message and self.processed_json:`). -/
def mark_processing_failed (a : Article) (error_message : String) : Article :=
  { a with
    processing_status := "failed",
    processed_json :=
      if error_message ≠ "" ∧ ¬a.processed_json.isEmptyDict then
        { a.processed_json with error := some error_message }
      else a.processed_json }

/-- A `ProcessingLog` row (models.py lines 277-318) as created by the
pipeline: operation, status, message.  (The optional `processing_time`
column, which no claim mentions, is not modelled.) -/
structure LogEntry where
  operation : String
  status : String
  message : String
deriving DecidableEq

end DashboardModels

/-! ## `dashboard/views.py` — `ProcessArticleView` -/

namespace ProcessArticleView

open DashboardModels

/-- The inline French indicator list of
`ProcessArticleView.detect_article_language` (views.py line 114). -/
def french_indicators : List String :=
  ["le", "la", "les", "de", "du", "des", "et", "dans", "pour", "avec"]

/-- The inline English indicator list (views.py line 118). -/
def english_indicators : List String :=
  ["the", "and", "to", "of", "in", "for", "with", "on", "is", "are"]

/-- `ProcessArticleView.detect_article_language` (views.py lines
108-126): counts how many indicator WORDS occur as SUBSTRINGS of the
lower-cased text (`word in text_lower` is substring containment on a
string), no minimum-length rule, and decides `fr` when the French count
strictly exceeds the English count. -/
def detect_article_language (text : String) : String :=
  let text_lower := pyLower text
  let french_count := french_indicators.countP (fun word => pyInStr word text_lower)
  let english_count := english_indicators.countP (fun word => pyInStr word text_lower)
  if english_count < french_count then "fr"
  else if french_count < english_count then "en"
  else "auto"

/-- The inline `cameroon_locations` table of
`ProcessArticleView.geocode_location` (views.py lines 265-277): eleven
entries, in dict insertion order. -/
def cameroon_locations : List (String × DashboardUtils.Coord) :=
  [ ("yaoundé", ⟨3.8480, 11.5021⟩),
    ("yaounde", ⟨3.8480, 11.5021⟩),
    ("douala", ⟨4.0511, 9.7679⟩),
    ("bamenda", ⟨5.9631, 10.1591⟩),
    ("bafoussam", ⟨5.4781, 10.4167⟩),
    ("garoua", ⟨9.3265, 13.3971⟩),
    ("maroua", ⟨10.5969, 14.3197⟩),
    ("ngaoundéré", ⟨7.3167, 13.5833⟩),
    ("bertoua", ⟨4.5777, 13.6836⟩),
    ("buea", ⟨4.1559, 9.2928⟩),
    ("cameroon", ⟨3.8480, 11.5021⟩) ]

/-- `ProcessArticleView.geocode_location` (views.py lines 259-280): a
bare `dict.get` on the normalised name against the eleven-entry inline
table — exact match only, no partial-match fallback, `None` otherwise. -/
def geocode_location (location_name : String) : Option DashboardUtils.Coord :=
  let location_lower := pyStrip (pyLower location_name)
  DashboardUtils.exactLookup location_lower cameroon_locations

/-- The external services the pipeline calls.  `translation` is the
outcome of `call_translation_service`: `none` on timeout, non-200 status
or connection error, otherwise the parsed JSON object.  `ner` is
`call_ner_service` as a function of the posted text; `none` likewise
covers the failure outcomes (a 200 response parsing to a falsy/empty
object takes the same `failed` branch in the source and is folded into
`none`). -/
structure Services where
  translation : Option (List (String × String))
  ner : String → Option NerResponse

/-- Everything `process_article_pipeline` leaves behind: the final
persisted article, the `ProcessingLog` rows in creation order, and the
text that was handed to the NER service (`text_for_ner`). -/
structure PipelineOutcome where
  article : Article
  logs : List LogEntry
  textForNer : String

/-- `ProcessArticleView.process_article_pipeline` (views.py lines
128-257), the non-faulting executions of the `try` block: detect
language and move to `translating`; call translation when the detected
language is not `en` (falling back to the raw text and logging `failed`
when the call fails or the response object is falsy, and synthesising a
zero-cost result without any network call for English); move to
`extracting_entities` and call the NER service on the chosen text;
on NER success store the response, set `entity_count` and geocode the
first `LOCATION` entity when the article has no location; finally store
the accumulated results map and set the status to `processed`.  The
`except` handler for faulting executions is
`DashboardModels.mark_processing_failed` applied to the article state at
the fault point. -/
def process_article_pipeline (article : Article) (svc : Services) : PipelineOutcome :=
  let detected_lang := detect_article_language article.raw_text
  let a1 : Article :=
    { article with language := detected_lang, processing_status := "translating" }
  let logs1 : List LogEntry :=
    [⟨"translation", "started", "Detected language: " ++ detected_lang⟩]
  let step2 : Option (List (String × String)) × String × List LogEntry :=
    if detected_lang ≠ "en" then
      match svc.translation with
      | some translation_result =>
        if translation_result.isEmpty then
          (none, article.raw_text,
           logs1 ++ [⟨"translation", "failed", "Translation service unavailable"⟩])
        else
          (some translation_result,
           pyDictGetD translation_result "translated_text" article.raw_text,
           logs1 ++ [⟨"translation", "completed", "Translation successful"⟩])
      | none =>
        (none, article.raw_text,
         logs1 ++ [⟨"translation", "failed", "Translation service unavailable"⟩])
    else
      (some [("translated_text", article.raw_text),
             ("detected_language", "en"),
             ("processing_time", "0.0")],
       article.raw_text, logs1)
  match step2 with
  | (results_translation, text_for_ner, logs2) =>
    let a2 : Article := { a1 with processing_status := "extracting_entities" }
    let logs3 := logs2 ++ [⟨"ner_extraction", "started", "Starting entity extraction"⟩]
    match svc.ner text_for_ner with
    | some ner_result =>
      let a3 : Article := { a2 with entity_count := ner_result.entity_count }
      let logs4 := logs3 ++
        [⟨"ner_extraction", "completed",
          "Extracted " ++ toString ner_result.entity_count ++ " entities"⟩]
      let location_entities :=
        ner_result.entities.filter (fun e => e.entity_group == "LOCATION")
      let step4 : Article × List LogEntry :=
        match location_entities, a3.location with
        | first_location :: _, none =>
          match geocode_location first_location.word with
          | some coordinates =>
            ({ a3 with location := some coordinates },
             logs4 ++ [⟨"geocoding", "completed",
                        "Geocoded location: " ++ first_location.word⟩])
          | none => (a3, logs4)
        | _, _ => (a3, logs4)
      match step4 with
      | (a4, logs5) =>
        { article :=
            { a4 with
              processed_json :=
                { translation := results_translation,
                  entities := some ner_result,
                  error := none },
              processing_status := "processed" },
          logs := logs5,
          textForNer := text_for_ner }
    | none =>
      let logs4 := logs3 ++ [⟨"ner_extraction", "failed", "NER service unavailable"⟩]
      { article :=
          { a2 with
            processed_json :=
              { translation := results_translation,
                entities := none,
                error := none },
            processing_status := "processed" },
        logs := logs4,
        textForNer := text_for_ner }

end ProcessArticleView

/-! ## Helper lemmas on the Python string primitives -/

/-- Joining words with single spaces: the builder for texts "built purely
from" an indicator word list. -/
def joinL : List (List Char) → List Char
  | [] => []
  | [w] => w
  | w :: ws => w ++ ' ' :: joinL ws

/-- `joinL` on strings. -/
def joinWords (ws : List String) : String := String.mk (joinL (ws.map String.data))

theorem joinL_cons_cons (w v : List Char) (t : List (List Char)) :
    joinL (w :: v :: t) = w ++ ' ' :: joinL (v :: t) := rfl

theorem lowerL_joinL (ls : List (List Char)) (h : ∀ l ∈ ls, lowerL l = l) :
    lowerL (joinL ls) = joinL ls := by
  induction ls with
  | nil => rfl
  | cons w ws ih =>
    cases ws with
    | nil => exact h w (by simp)
    | cons v t =>
      rw [joinL_cons_cons, lowerL, List.map_append, List.map_cons]
      rw [show Char.toLower ' ' = ' ' from rfl]
      rw [show List.map Char.toLower w = lowerL w from rfl, h w (by simp)]
      rw [show List.map Char.toLower (joinL (v :: t)) = lowerL (joinL (v :: t)) from rfl]
      rw [ih (fun l hl => h l (by simp [hl]))]

theorem splitAux_append_word (w : List Char) (hw : ∀ c ∈ w, ¬isPySpace c) :
    ∀ (r acc : List Char), splitAux (w ++ r) acc = splitAux r (w.reverse ++ acc) := by
  induction w with
  | nil => intro r acc; simp
  | cons c cs ih =>
    intro r acc
    have hc : isPySpace c = false := by
      have := hw c (by simp)
      simp_all
    simp only [List.cons_append, splitAux, hc, Bool.false_eq_true, if_false, List.append_eq]
    rw [ih (fun x hx => hw x (by simp [hx])) r (c :: acc)]
    simp

theorem splitAux_joinL (ls : List (List Char))
    (h : ∀ l ∈ ls, l ≠ [] ∧ ∀ c ∈ l, ¬isPySpace c) :
    splitAux (joinL ls) [] = ls := by
  induction ls with
  | nil => rfl
  | cons w ws ih =>
    obtain ⟨hne, hsp⟩ := h w (by simp)
    cases ws with
    | nil =>
      show splitAux (joinL [w]) [] = [w]
      rw [show joinL [w] = w ++ [] by simp [joinL]]
      rw [splitAux_append_word w hsp [] []]
      simp [splitAux, hne]
    | cons v t =>
      rw [joinL_cons_cons, splitAux_append_word w hsp (' ' :: joinL (v :: t)) []]
      have hrev : (w.reverse ++ []).isEmpty = false := by
        simp [List.isEmpty_iff, hne]
      simp only [splitAux, show isPySpace ' ' = true from rfl, if_pos, hrev]
      rw [ih (fun l hl => h l (by simp [hl]))]
      simp [hne]

theorem joinL_head (ls : List (List Char)) (hne : ls ≠ [])
    (h : ∀ l ∈ ls, l ≠ [] ∧ ∀ c ∈ l, ¬isPySpace c) :
    ∃ c cs, joinL ls = c :: cs ∧ ¬isPySpace c := by
  match ls with
  | [w] =>
    obtain ⟨hw, hsp⟩ := h w (by simp)
    obtain ⟨c, cs, rfl⟩ := List.exists_cons_of_ne_nil hw
    exact ⟨c, cs, rfl, hsp c (by simp)⟩
  | w :: v :: t =>
    obtain ⟨hw, hsp⟩ := h w (by simp)
    obtain ⟨c, cs, rfl⟩ := List.exists_cons_of_ne_nil hw
    exact ⟨c, cs ++ ' ' :: joinL (v :: t), by rw [joinL_cons_cons]; rfl, hsp c (by simp)⟩

theorem joinL_getLast (ls : List (List Char)) (hne : ls ≠ [])
    (h : ∀ l ∈ ls, l ≠ [] ∧ ∀ c ∈ l, ¬isPySpace c) :
    ∃ c, (joinL ls).getLast? = some c ∧ ¬isPySpace c := by
  induction ls with
  | nil => exact absurd rfl hne
  | cons w ws ih =>
    cases ws with
    | nil =>
      obtain ⟨hw, hsp⟩ := h w (by simp)
      have : (joinL [w]).getLast? = w.getLast? := rfl
      obtain ⟨c, hc⟩ := Option.isSome_iff_exists.mp
        (by simpa [List.getLast?_eq_none_iff, Option.isSome_iff_ne_none] using hw :
          w.getLast?.isSome)
      exact ⟨c, by rw [this, hc], hsp c (List.mem_of_mem_getLast? hc)⟩
    | cons v t =>
      obtain ⟨c, hc, hcsp⟩ := ih (by simp) (fun l hl => h l (by simp [hl]))
      refine ⟨c, ?_, hcsp⟩
      rw [joinL_cons_cons, List.getLast?_append]
      have : (joinL (v :: t)).getLast? = some c := hc
      rw [show (' ' :: joinL (v :: t)) = [' '] ++ joinL (v :: t) from rfl,
        List.getLast?_append, this]
      rfl

theorem stripL_joinL (ls : List (List Char)) (hne : ls ≠ [])
    (h : ∀ l ∈ ls, l ≠ [] ∧ ∀ c ∈ l, ¬isPySpace c) :
    stripL (joinL ls) = joinL ls := by
  obtain ⟨c, cs, hcons, hcsp⟩ := joinL_head ls hne h
  obtain ⟨d, hd, hdsp⟩ := joinL_getLast ls hne h
  rw [stripL, hcons, List.dropWhile_cons, if_neg (by simpa using hcsp)]
  rw [← hcons]
  have hrev : (joinL ls).reverse.head? = some d := by
    rw [List.head?_reverse, hd]
  obtain ⟨t, ht⟩ : ∃ t, (joinL ls).reverse = d :: t := by
    cases hrl : (joinL ls).reverse with
    | nil => rw [hrl] at hrev; simp at hrev
    | cons x xs => rw [hrl] at hrev; simp at hrev; exact ⟨xs, by rw [hrev]⟩
  rw [ht, List.dropWhile_cons, if_neg (by simpa using hdsp), ← ht, List.reverse_reverse]

theorem scoreAgainst_cons (cats : List (List (List Char))) (w : List Char)
    (ws : List (List Char)) :
    DashboardUtils.scoreAgainst cats (w :: ws) =
      DashboardUtils.scoreAgainst cats ws +
        (cats.map (fun cat => if cat.contains w then 1 else 0)).sum := by
  induction cats with
  | nil => rfl
  | cons cat cats ih =>
    simp only [DashboardUtils.scoreAgainst, List.map_cons, List.sum_cons] at *
    rw [List.countP_cons, ih]
    ring

theorem scoreAgainst_le (cats : List (List (List Char))) (ws : List (List Char))
    (h : ∀ w ∈ ws, ∃ cat ∈ cats, cat.contains w) :
    ws.length ≤ DashboardUtils.scoreAgainst cats ws := by
  induction ws with
  | nil => simp
  | cons w ws ih =>
    rw [scoreAgainst_cons, List.length_cons]
    have h1 : 1 ≤ (cats.map (fun cat => if cat.contains w then 1 else 0)).sum := by
      obtain ⟨cat, hcat, hmem⟩ := h w (by simp)
      calc (1 : Nat) = (if cat.contains w then 1 else 0) := (if_pos hmem).symm
        _ ≤ (cats.map (fun cat => if cat.contains w then 1 else 0)).sum :=
          List.single_le_sum (by intro x hx; positivity) _ (List.mem_map_of_mem _ hcat)
    have h2 := ih (fun x hx => h x (by simp [hx]))
    omega

theorem scoreAgainst_eq_zero (cats : List (List (List Char))) (ws : List (List Char))
    (h : ∀ w ∈ ws, ∀ cat ∈ cats, cat.contains w = false) :
    DashboardUtils.scoreAgainst cats ws = 0 := by
  induction cats with
  | nil => rfl
  | cons cat cats ih =>
    simp only [DashboardUtils.scoreAgainst, List.map_cons, List.sum_cons]
    rw [show List.countP (fun w => cat.contains w) ws = 0 from
      List.countP_eq_zero.mpr (fun w hw hcon => by
        have hcon' : cat.contains w = true := hcon
        rw [h w hw cat (List.mem_cons_self _ _)] at hcon'
        exact Bool.false_ne_true hcon')]
    simpa [DashboardUtils.scoreAgainst] using ih (fun w hw c hc => h w hw c (by simp [hc]))

/-- The flattened union of the English indicator categories of
`detect_language` (the words a "purely English-indicator" text is built
from). -/
def englishWords : List String :=
  ["the", "a", "an",
   "in", "on", "at", "for", "with", "by", "from", "to", "of",
   "and", "or", "but", "so", "yet", "nor",
   "is", "are", "have", "has", "will", "would", "could", "should",
   "i", "you", "he", "she", "we", "they", "it", "this", "that"]

/-- The flattened union of the French indicator categories of
`detect_language`. -/
def frenchWords : List String :=
  ["le", "la", "les", "un", "une", "des", "du", "de",
   "dans", "pour", "avec", "sur", "sous", "par", "sans",
   "et", "ou", "mais", "donc", "car", "ni",
   "est", "sont", "avoir", "être", "faire", "aller", "voir",
   "je", "tu", "il", "elle", "nous", "vous", "ils", "elles"]

/-- Every indicator word is non-empty, whitespace-free, and already
lower-case (so `str.lower` fixes it). -/
theorem englishWords_clean : ∀ w ∈ englishWords,
    w.data ≠ [] ∧ (∀ c ∈ w.data, ¬isPySpace c) ∧ lowerL w.data = w.data := by decide

theorem frenchWords_clean : ∀ w ∈ frenchWords,
    w.data ≠ [] ∧ (∀ c ∈ w.data, ¬isPySpace c) ∧ lowerL w.data = w.data := by decide

/-- Every word of the flattened English list belongs to some English
indicator category of `detect_language`. -/
theorem englishWords_hit : ∀ w ∈ englishWords,
    ∃ cat ∈ DashboardUtils.english_indicators, cat.contains w.data := by decide

theorem frenchWords_hit : ∀ w ∈ frenchWords,
    ∃ cat ∈ DashboardUtils.french_indicators, cat.contains w.data := by decide

/-- No English indicator word occurs in any French indicator category,
and vice versa: the two indicator vocabularies are disjoint. -/
theorem englishWords_miss_french : ∀ w ∈ englishWords,
    ∀ cat ∈ DashboardUtils.french_indicators, cat.contains w.data = false := by decide

theorem frenchWords_miss_english : ∀ w ∈ frenchWords,
    ∀ cat ∈ DashboardUtils.english_indicators, cat.contains w.data = false := by decide

/-- Texts shorter than the minimum usable length are undetermined:
`detect_language` answers `auto` whenever the stripped text has fewer
than 10 characters or fewer than 5 whitespace-separated words. -/
theorem detect_short_auto (text : String)
    (h : (stripL text.data).length < 10 ∨
         (splitWordsL (stripL (lowerL text.data))).length < 5) :
    DashboardUtils.detect_language text = "auto" := by
  rw [DashboardUtils.detect_language]
  split
  · rfl
  · rename_i h1
    dsimp only
    rcases h with h2 | h2
    · exact absurd (by simp [h2]) h1
    · rw [if_pos h2]

/-- A text of at least 5 words and 10 stripped characters built purely
from the English indicator vocabulary is detected as English. -/
theorem detect_pure_english (ws : List String)
    (hlen : 5 ≤ ws.length)
    (hmem : ∀ w ∈ ws, w ∈ englishWords)
    (hchars : 10 ≤ (stripL (joinWords ws).data).length) :
    DashboardUtils.detect_language (joinWords ws) = "en" := by
  have hclean : ∀ l ∈ ws.map String.data, l ≠ [] ∧ ∀ c ∈ l, ¬isPySpace c := by
    intro l hl
    obtain ⟨w, hw, rfl⟩ := List.mem_map.mp hl
    obtain ⟨h1, h2, h3⟩ := englishWords_clean w (hmem w hw)
    exact ⟨h1, h2⟩
  have hlower : ∀ l ∈ ws.map String.data, lowerL l = l := by
    intro l hl
    obtain ⟨w, hw, rfl⟩ := List.mem_map.mp hl
    exact (englishWords_clean w (hmem w hw)).2.2
  have hnil : ws.map String.data ≠ [] := by
    cases ws
    · simp at hlen
    · simp
  have hJ : (joinWords ws).data = joinL (ws.map String.data) := rfl
  obtain ⟨c, cs, hcons, hcsp⟩ := joinL_head _ hnil hclean
  have hempty : (joinWords ws).data.isEmpty = false := by
    rw [hJ, hcons]; rfl
  have hwords : splitWordsL (stripL (lowerL (joinWords ws).data)) = ws.map String.data := by
    rw [hJ, lowerL_joinL _ hlower, stripL_joinL _ hnil hclean, splitWordsL,
      splitAux_joinL _ hclean]
  have hes : 5 ≤ DashboardUtils.scoreAgainst DashboardUtils.english_indicators
      (ws.map String.data) := by
    refine le_trans ?_ (scoreAgainst_le _ _ ?_)
    · simpa using hlen
    · intro l hl
      obtain ⟨w, hw, rfl⟩ := List.mem_map.mp hl
      exact englishWords_hit w (hmem w hw)
  have hfs : DashboardUtils.scoreAgainst DashboardUtils.french_indicators
      (ws.map String.data) = 0 := by
    refine scoreAgainst_eq_zero _ _ ?_
    intro l hl
    obtain ⟨w, hw, rfl⟩ := List.mem_map.mp hl
    exact englishWords_miss_french w (hmem w hw)
  rw [DashboardUtils.detect_language]
  rw [if_neg (by rw [hempty]; simp; omega)]
  dsimp only
  rw [hwords]
  rw [if_neg (by simp; omega)]
  rw [hfs]
  rw [if_neg (by omega)]
  rw [if_pos (by omega)]

/-- A text of at least 5 words and 10 stripped characters built purely
from the French indicator vocabulary is detected as French (the biased
rule `french_score > english_score * 1.5` fires since the English score
is zero). -/
theorem detect_pure_french (ws : List String)
    (hlen : 5 ≤ ws.length)
    (hmem : ∀ w ∈ ws, w ∈ frenchWords)
    (hchars : 10 ≤ (stripL (joinWords ws).data).length) :
    DashboardUtils.detect_language (joinWords ws) = "fr" := by
  have hclean : ∀ l ∈ ws.map String.data, l ≠ [] ∧ ∀ c ∈ l, ¬isPySpace c := by
    intro l hl
    obtain ⟨w, hw, rfl⟩ := List.mem_map.mp hl
    obtain ⟨h1, h2, h3⟩ := frenchWords_clean w (hmem w hw)
    exact ⟨h1, h2⟩
  have hlower : ∀ l ∈ ws.map String.data, lowerL l = l := by
    intro l hl
    obtain ⟨w, hw, rfl⟩ := List.mem_map.mp hl
    exact (frenchWords_clean w (hmem w hw)).2.2
  have hnil : ws.map String.data ≠ [] := by
    cases ws
    · simp at hlen
    · simp
  have hJ : (joinWords ws).data = joinL (ws.map String.data) := rfl
  obtain ⟨c, cs, hcons, hcsp⟩ := joinL_head _ hnil hclean
  have hempty : (joinWords ws).data.isEmpty = false := by
    rw [hJ, hcons]; rfl
  have hwords : splitWordsL (stripL (lowerL (joinWords ws).data)) = ws.map String.data := by
    rw [hJ, lowerL_joinL _ hlower, stripL_joinL _ hnil hclean, splitWordsL,
      splitAux_joinL _ hclean]
  have hfs : 5 ≤ DashboardUtils.scoreAgainst DashboardUtils.french_indicators
      (ws.map String.data) := by
    refine le_trans ?_ (scoreAgainst_le _ _ ?_)
    · simpa using hlen
    · intro l hl
      obtain ⟨w, hw, rfl⟩ := List.mem_map.mp hl
      exact frenchWords_hit w (hmem w hw)
  have hes : DashboardUtils.scoreAgainst DashboardUtils.english_indicators
      (ws.map String.data) = 0 := by
    refine scoreAgainst_eq_zero _ _ ?_
    intro l hl
    obtain ⟨w, hw, rfl⟩ := List.mem_map.mp hl
    exact frenchWords_miss_english w (hmem w hw)
  rw [DashboardUtils.detect_language]
  rw [if_neg (by rw [hempty]; simp; omega)]
  dsimp only
  rw [hwords]
  rw [if_neg (by simp; omega)]
  rw [hes, if_pos (by omega)]

/-! ## Helper lemmas on the entity sort and merge -/

namespace NerService

theorem mem_insertByStart {y e : Entity} {l : List Entity}
    (h : y ∈ insertByStart e l) : y = e ∨ y ∈ l := by
  induction l with
  | nil => simpa [insertByStart] using h
  | cons x xs ih =>
    rw [insertByStart] at h
    by_cases hx : x.start < e.start
    · rw [if_pos hx] at h
      rcases List.mem_cons.mp h with h1 | h2
      · exact Or.inr (by simp [h1])
      · rcases ih h2 with h3 | h4
        · exact Or.inl h3
        · exact Or.inr (by simp [h4])
    · rw [if_neg hx] at h
      rcases List.mem_cons.mp h with h1 | h2
      · exact Or.inl h1
      · exact Or.inr h2

theorem pairwise_insertByStart {e : Entity} {l : List Entity}
    (h : l.Pairwise (fun a b => a.start ≤ b.start)) :
    (insertByStart e l).Pairwise (fun a b => a.start ≤ b.start) := by
  induction l with
  | nil => simp [insertByStart]
  | cons x xs ih =>
    rw [List.pairwise_cons] at h
    obtain ⟨hx, hxs⟩ := h
    rw [insertByStart]
    by_cases hcmp : x.start < e.start
    · rw [if_pos hcmp]
      rw [List.pairwise_cons]
      refine ⟨fun y hy => ?_, ih hxs⟩
      rcases mem_insertByStart hy with rfl | hy'
      · exact le_of_lt hcmp
      · exact hx y hy'
    · rw [if_neg hcmp]
      rw [List.pairwise_cons]
      refine ⟨fun y hy => ?_, by rw [List.pairwise_cons]; exact ⟨hx, hxs⟩⟩
      rcases List.mem_cons.mp hy with rfl | hy'
      · exact le_of_not_lt hcmp
      · exact le_trans (le_of_not_lt hcmp) (hx y hy')

theorem pairwise_sortByStart (l : List Entity) :
    (sortByStart l).Pairwise (fun a b => a.start ≤ b.start) := by
  induction l with
  | nil => simp [sortByStart]
  | cons x xs ih => exact pairwise_insertByStart ih

/-- The head of the merge pass keeps the seed's category and start
offset (only `word`, `end` and `confidence` change under merging). -/
theorem mergeLoop_head (l : List Entity) :
    ∀ cur : Entity, ∃ h t, mergeLoop cur l = h :: t ∧
      h.entity_group = cur.entity_group ∧ h.start = cur.start := by
  induction l with
  | nil => intro cur; exact ⟨cur, [], rfl, rfl, rfl⟩
  | cons next rest ih =>
    intro cur
    rw [mergeLoop]
    by_cases hc : mergeCond cur next
    · rw [if_pos hc]
      obtain ⟨h, t, heq, hg, hs⟩ := ih (mergeTwo cur next)
      exact ⟨h, t, heq, hg, hs⟩
    · rw [if_neg hc]
      exact ⟨cur, mergeLoop next rest, rfl, rfl, rfl⟩

/-- `mergeCond` reads only the category and start of its second
argument. -/
theorem mergeCond_congr (cur : Entity) {x y : Entity}
    (hg : x.entity_group = y.entity_group) (hs : x.start = y.start) :
    mergeCond cur x = mergeCond cur y := by
  rw [mergeCond, mergeCond, hg, hs]

/-- The merge pass is a fixpoint on its own output (taken in the order
the pass returns it): when the pass flushed the accumulator because the
merge test failed against the next group's seed, the test also fails
against the finished next group, whose category and start are the
seed's. -/
theorem merge_mergeLoop (l : List Entity) :
    ∀ cur : Entity, merge_adjacent_entities (mergeLoop cur l) = mergeLoop cur l := by
  induction l with
  | nil => intro cur; rfl
  | cons next rest ih =>
    intro cur
    rw [mergeLoop]
    by_cases hc : mergeCond cur next
    · rw [if_pos hc]
      exact ih (mergeTwo cur next)
    · rw [if_neg hc]
      obtain ⟨h, t, heq, hg, hs⟩ := mergeLoop_head rest next
      have htail : mergeLoop h t = h :: t := by
        have := ih next
        rw [heq] at this
        exact this
      rw [heq, merge_adjacent_entities, mergeLoop,
        if_neg (by rw [mergeCond_congr cur hg hs]; exact hc), htail]

end NerService

/-! ## Helper lemmas on the gazetteer tables -/

theorem exactLookup_mem {k : String} {v : DashboardUtils.Coord}
    {tbl : List (String × DashboardUtils.Coord)}
    (h : DashboardUtils.exactLookup k tbl = some v) :
    ∃ p ∈ tbl, p.1 = k ∧ p.2 = v := by
  rw [DashboardUtils.exactLookup] at h
  cases hf : tbl.find? (fun p => p.1 == k) with
  | none => rw [hf] at h; simp at h
  | some p =>
    rw [hf] at h
    simp at h
    refine ⟨p, List.mem_of_find?_eq_some hf, ?_, h⟩
    have := List.find?_some hf
    simpa using this

/-- Every entry of the orchestrator's inline eleven-entry location table
appears, with the same coordinates, as an exact key of the full
gazetteer `location_database`. -/
theorem cameroon_sub_database : ∀ p ∈ ProcessArticleView.cameroon_locations,
    DashboardUtils.exactLookup p.1 DashboardUtils.location_database = some p.2 := by
  intro p hp
  fin_cases hp <;> rfl

/-! ## The claims -/

/-- Claim C1 (code_bug): the claim says `classify_article_priority`
returns a priority for every article input without raising, and that a
text containing `protest` once with no critical keywords and 4 `PERSON`
entities yields priority 3.  The source instead evaluates
`any('boko haram' in text_lower, 'terrorist' in text_lower)` — `any`
with two positional arguments — whenever fewer than two critical
keywords match, so that exact input raises
`TypeError: any() takes exactly one argument (2 given)`.  The intended
OR-reading of the spec (`classify_article_priority_spec`) does return 3
there, and the code only returns normally (priority 1) when the
short-circuited `critical_count >= 2` test already succeeded. -/
theorem C1_classify_priority_raises :
    DashboardUtils.classify_article_priority
      { translated_text := "citizens gathered to protest peacefully in the city",
        raw_text := "",
        entities := [⟨"Paul Biya", "PERSON", 0.9, 0, 9⟩, ⟨"John Fru", "PERSON", 0.9, 12, 20⟩,
                     ⟨"Mary Muna", "PERSON", 0.9, 25, 34⟩, ⟨"Joseph Kam", "PERSON", 0.9, 40, 50⟩] }
      = Except.error "any() takes exactly one argument (2 given)" ∧
    DashboardUtils.classify_article_priority_spec
      { translated_text := "citizens gathered to protest peacefully in the city",
        raw_text := "",
        entities := [⟨"Paul Biya", "PERSON", 0.9, 0, 9⟩, ⟨"John Fru", "PERSON", 0.9, 12, 20⟩,
                     ⟨"Mary Muna", "PERSON", 0.9, 25, 34⟩, ⟨"Joseph Kam", "PERSON", 0.9, 40, 50⟩] }
      = 3 ∧
    DashboardUtils.classify_article_priority
      { translated_text := "bomb attack in the north", raw_text := "", entities := [] }
      = Except.ok 1 :=
  ⟨rfl, rfl, rfl⟩

/-- Claim C2 (code_bug): the claim says an orchestration fault always
leaves stage `failed` with the error message stored under
`results.error`, including when the results map was still empty.  But
`mark_processing_failed` guards the attachment with
`if error_message and self.processed_json:` and the pipeline only writes
`processed_json` at its final line, so a fresh article (empty results
map) that faults gets stage `failed` with NO `error` key even though the
message (`"boom"`) is non-empty. -/
theorem C2_failed_error_not_attached :
    (DashboardModels.mark_processing_failed
        (DashboardModels.freshArticle "Troops deployed in Bamenda") "boom").processing_status
      = "failed" ∧
    (DashboardModels.mark_processing_failed
        (DashboardModels.freshArticle "Troops deployed in Bamenda") "boom").processed_json.error
      = none ∧
    ("boom" : String) ≠ "" :=
  ⟨rfl, rfl, by decide⟩

/-- Claim C3, counterexample: on the article text `"the cat"` the
orchestrator stores language `en` (its inline substring detector), while
the section-4.1 detector `detect_language` answers `auto` (stripped
length below 10), so the stored code does not equal `detect_language` of
the raw text. -/
theorem C3_stored_language_counterexample :
    (ProcessArticleView.process_article_pipeline
        (DashboardModels.freshArticle "the cat")
        { translation := none, ner := fun _ => none }).article.language = "en" ∧
    DashboardUtils.detect_language "the cat" = "auto" :=
  ⟨rfl, rfl⟩

/-- Claim C3 (corrected): the language code the orchestrator stores at
the `pending → translating` transition is, for every article and every
service behaviour, the output of its own inline
`detect_article_language` (substring counts of ten French and ten
English indicator words, `fr`/`en`/`auto` by strict comparison) applied
to the raw text — not the section-4.1 `detect_language`. -/
theorem C3_stored_language_is_inline_detector
    (a : DashboardModels.Article) (svc : ProcessArticleView.Services) :
    (ProcessArticleView.process_article_pipeline a svc).article.language =
      ProcessArticleView.detect_article_language a.raw_text := by
  unfold ProcessArticleView.process_article_pipeline
  dsimp only
  repeat' split <;> try rfl

/-- Claim C4, counterexample: the NER stage finds the `LOCATION` entity
`"Limbe"`, which the section-4.5 gazetteer resolves (via its exact table
entry) to `(4.0186, 9.2105)`, yet the orchestrator leaves the article's
location unset because its own inline table has no `limbe` key and it
performs no substring fallback. -/
theorem C4_geocode_counterexample :
    (ProcessArticleView.process_article_pipeline
        (DashboardModels.freshArticle "Clashes in Limbe")
        { translation := none,
          ner := fun _ => some { entities := [⟨"Limbe", "LOCATION", 0.99, 11, 16⟩],
                                 entity_count := 1 } }).article.location = none ∧
    DashboardUtils.geocode_location "Limbe" = some ⟨4.0186, 9.2105⟩ :=
  ⟨rfl, rfl⟩

/-- Claim C4 (corrected): the inclusion holds only in the converse
direction — every name the orchestrator's inline exact-match
`geocode_location` resolves is also resolved by the section-4.5
gazetteer, with the same coordinates (the eleven inline entries are
exact keys of the full table); the orchestrator performs no substring
fallback, so gazetteer-resolvable names like `"Limbe"` are not
orchestrator-resolvable. -/
theorem C4_orchestrator_geocode_subset_of_gazetteer
    (name : String) (c : DashboardUtils.Coord)
    (h : ProcessArticleView.geocode_location name = some c) :
    DashboardUtils.geocode_location name = some c := by
  rw [ProcessArticleView.geocode_location] at h
  obtain ⟨p, hp, hk, hv⟩ := exactLookup_mem h
  rw [DashboardUtils.geocode_location]
  have := cameroon_sub_database p hp
  rw [hk, hv] at this
  rw [this]

/-- Witness for C4: `"Garoua"` is resolved by the orchestrator's inline
table, and the theorem transports it to the full gazetteer. -/
theorem C4_orchestrator_geocode_subset_of_gazetteer_witness :
    ProcessArticleView.geocode_location "Garoua" = some ⟨9.3265, 13.3971⟩ ∧
    DashboardUtils.geocode_location "Garoua" = some ⟨9.3265, 13.3971⟩ :=
  ⟨rfl, C4_orchestrator_geocode_subset_of_gazetteer "Garoua" ⟨9.3265, 13.3971⟩ rfl⟩

/-- Claim C5 (confirmed): whenever the article is non-English (by the
orchestrator's own detection) and the translation-service call fails
(timeout, non-200 status, or connection error — the `None` outcome of
`call_translation_service`), the pipeline logs the translation stage as
`failed`, hands the original raw text to entity extraction, stores no
translation result, and still drives the record to stage `processed`
(no abort): the failure branch is non-fatal for every article and every
NER-service behaviour. -/
theorem C5_translation_failure_degrades_gracefully
    (a : DashboardModels.Article) (svc : ProcessArticleView.Services)
    (hlang : ProcessArticleView.detect_article_language a.raw_text ≠ "en")
    (hfail : svc.translation = none) :
    (ProcessArticleView.process_article_pipeline a svc).textForNer = a.raw_text ∧
    (ProcessArticleView.process_article_pipeline a svc).article.processing_status
      = "processed" ∧
    (⟨"translation", "failed", "Translation service unavailable"⟩ :
        DashboardModels.LogEntry) ∈
      (ProcessArticleView.process_article_pipeline a svc).logs ∧
    (ProcessArticleView.process_article_pipeline a svc).article.processed_json.translation
      = none := by
  unfold ProcessArticleView.process_article_pipeline
  rw [hfail]
  dsimp only
  rw [if_pos hlang]
  repeat' split <;> simp_all

/-- Witness for C5 at a concrete French article with an unavailable
translation service. -/
theorem C5_translation_failure_degrades_gracefully_witness :
    (ProcessArticleView.process_article_pipeline
        (DashboardModels.freshArticle "le gouvernement du cameroun annonce")
        { translation := none, ner := fun _ => none }).textForNer
      = "le gouvernement du cameroun annonce" ∧
    (ProcessArticleView.process_article_pipeline
        (DashboardModels.freshArticle "le gouvernement du cameroun annonce")
        { translation := none, ner := fun _ => none }).article.processing_status
      = "processed" ∧
    (⟨"translation", "failed", "Translation service unavailable"⟩ :
        DashboardModels.LogEntry) ∈
      (ProcessArticleView.process_article_pipeline
        (DashboardModels.freshArticle "le gouvernement du cameroun annonce")
        { translation := none, ner := fun _ => none }).logs ∧
    (ProcessArticleView.process_article_pipeline
        (DashboardModels.freshArticle "le gouvernement du cameroun annonce")
        { translation := none, ner := fun _ => none }).article.processed_json.translation
      = none :=
  C5_translation_failure_degrades_gracefully
    (DashboardModels.freshArticle "le gouvernement du cameroun annonce")
    { translation := none, ner := fun _ => none } (by decide) rfl

/-- Claim C6 (confirmed): the entity merger maps the empty list to the
empty list; a subsequent entity of the accumulator's category starting
within 2 characters of the accumulator's end is merged by concatenating
the words with a single space, extending the end and averaging the
confidences; the service's returned list (merge followed by the
stable start sort of `analyze_entities`) is sorted by start ascending;
and `{PERSON, Paul, 0-4, 0.9}` with `{PERSON, Biya, 5-9, 0.8}` merge to
`{PERSON, Paul Biya, 0-9, 0.85}`. -/
theorem C6_entity_merger_behaviour :
    NerService.merge_adjacent_entities [] = ([] : List Entity) ∧
    (∀ (cur next : Entity) (rest : List Entity),
      cur.entity_group = next.entity_group →
      next.start - 2 ≤ cur.end_ →
      NerService.merge_adjacent_entities (cur :: next :: rest) =
        NerService.merge_adjacent_entities
          ({ word := cur.word ++ " " ++ next.word,
             entity_group := cur.entity_group,
             confidence := (cur.confidence + next.confidence) / 2,
             start := cur.start,
             end_ := next.end_ } :: rest)) ∧
    (∀ l : List Entity,
      (NerService.finalEntities l).Pairwise (fun a b => a.start ≤ b.start)) ∧
    NerService.finalEntities
        [⟨"Paul", "PERSON", 0.9, 0, 4⟩, ⟨"Biya", "PERSON", 0.8, 5, 9⟩] =
      [⟨"Paul Biya", "PERSON", 0.85, 0, 9⟩] := by
  refine ⟨rfl, ?_, ?_, ?_⟩
  · intro cur next rest hg hs
    have hc : NerService.mergeCond cur next = true := by
      rw [NerService.mergeCond, hg]
      simp [hs]
    show NerService.mergeLoop cur (next :: rest) = _
    rw [NerService.mergeLoop, if_pos hc]
    rfl
  · intro l
    exact NerService.pairwise_sortByStart _
  · norm_num [NerService.finalEntities, NerService.merge_adjacent_entities,
      NerService.mergeLoop, NerService.mergeCond, NerService.mergeTwo,
      NerService.sortByStart, NerService.insertByStart]
    rfl

/-- Witness for C6: the merge step of the theorem applied to the
Paul/Biya pair. -/
theorem C6_entity_merger_behaviour_witness :
    NerService.merge_adjacent_entities
        [⟨"Paul", "PERSON", 0.9, 0, 4⟩, ⟨"Biya", "PERSON", 0.8, 5, 9⟩] =
      NerService.merge_adjacent_entities
        [{ word := "Paul" ++ " " ++ "Biya", entity_group := "PERSON",
           confidence := ((0.9 : ℚ) + 0.8) / 2, start := 0, end_ := 9 }] :=
  C6_entity_merger_behaviour.2.1
    ⟨"Paul", "PERSON", 0.9, 0, 4⟩ ⟨"Biya", "PERSON", 0.8, 5, 9⟩ [] rfl (by decide)

/-- Claim C7, counterexample: merging `[A(PER,0-10), B(LOC,50-60),
C(PER,8-20)]` performs no merge (only consecutive pairs are compared),
and the subsequent start sort places the two `PERSON` entities next to
each other; re-applying the merger to that returned, start-sorted list
merges them, so the output changes — the claimed idempotence on the
sorted output fails. -/
theorem C7_remerge_after_sort_counterexample :
    NerService.finalEntities
        [⟨"A", "PERSON", 0.9, 0, 10⟩, ⟨"B", "LOCATION", 0.9, 50, 60⟩,
         ⟨"C", "PERSON", 0.9, 8, 20⟩] =
      [⟨"A", "PERSON", 0.9, 0, 10⟩, ⟨"C", "PERSON", 0.9, 8, 20⟩,
       ⟨"B", "LOCATION", 0.9, 50, 60⟩] ∧
    NerService.merge_adjacent_entities
        [⟨"A", "PERSON", 0.9, 0, 10⟩, ⟨"C", "PERSON", 0.9, 8, 20⟩,
         ⟨"B", "LOCATION", 0.9, 50, 60⟩] ≠
      [⟨"A", "PERSON", 0.9, 0, 10⟩, ⟨"C", "PERSON", 0.9, 8, 20⟩,
       ⟨"B", "LOCATION", 0.9, 50, 60⟩] := by
  refine ⟨rfl, ?_⟩
  intro h
  have h2 : (NerService.merge_adjacent_entities
      [⟨"A", "PERSON", 0.9, 0, 10⟩, ⟨"C", "PERSON", 0.9, 8, 20⟩,
       ⟨"B", "LOCATION", 0.9, 50, 60⟩]).length = 2 := rfl
  rw [h] at h2
  simp at h2

/-- Claim C7 (corrected): the merger is idempotent on its own output
taken in the order the pass returns it (no consecutive pair of a merged
list, in pass order, satisfies the merge condition), for every input
list; it is the interposed start sort of `analyze_entities` that can
break idempotence, as the counterexample shows. -/
theorem C7_merge_idempotent_in_pass_order (es : List Entity) :
    NerService.merge_adjacent_entities (NerService.merge_adjacent_entities es) =
      NerService.merge_adjacent_entities es := by
  cases es with
  | nil => rfl
  | cons e rest => exact NerService.merge_mergeLoop rest e

/-- Claim C8 (confirmed): `geocode_location` normalises the name with
`lower().strip()`, answers the exact table match when one exists,
otherwise the first entry (in table iteration order) whose key contains
the name or is contained in it, and otherwise `None` ("not found",
merely logged — the function is total and never raises).  In particular
`"Yaoundé"` and `"yaounde"` resolve to the same coordinate, an unknown
name yields `None`, and `"Limbe town"` resolves through the substring
fallback. -/
theorem C8_gazetteer_lookup_order :
    (∀ (name : String) (c : DashboardUtils.Coord),
      DashboardUtils.exactLookup (pyStrip (pyLower name)) DashboardUtils.location_database
          = some c →
      DashboardUtils.geocode_location name = some c) ∧
    (∀ name : String,
      DashboardUtils.exactLookup (pyStrip (pyLower name)) DashboardUtils.location_database
          = none →
      DashboardUtils.geocode_location name =
        DashboardUtils.partialLookup (pyStrip (pyLower name))
          DashboardUtils.location_database) ∧
    DashboardUtils.geocode_location "Yaoundé" = some ⟨3.8480, 11.5021⟩ ∧
    DashboardUtils.geocode_location "yaounde" = some ⟨3.8480, 11.5021⟩ ∧
    DashboardUtils.geocode_location "Atlantis" = none ∧
    DashboardUtils.geocode_location "Limbe town" = some ⟨4.0186, 9.2105⟩ := by
  refine ⟨?_, ?_, rfl, rfl, rfl, rfl⟩
  · intro name c h
    rw [DashboardUtils.geocode_location, h]
  · intro name h
    rw [DashboardUtils.geocode_location, h]
    cases DashboardUtils.partialLookup (pyStrip (pyLower name))
        DashboardUtils.location_database with
    | none => rfl
    | some c => rfl

/-- Witness for C8: the exact-match clause applied at `"Douala"`. -/
theorem C8_gazetteer_lookup_order_witness :
    DashboardUtils.geocode_location "Douala" = some ⟨4.0511, 9.7679⟩ :=
  C8_gazetteer_lookup_order.1 "Douala" ⟨4.0511, 9.7679⟩ rfl

/-- Claim C9 (confirmed): `detect_language` answers `auto` for every
text with stripped length under 10 characters or fewer than 5
whitespace-separated words; and on texts of at least 5 words and 10
characters joined from the English indicator vocabulary it answers
`en`, from the French indicator vocabulary `fr`. -/
theorem C9_language_detector_properties :
    (∀ text : String,
      (stripL text.data).length < 10 ∨
        (splitWordsL (stripL (lowerL text.data))).length < 5 →
      DashboardUtils.detect_language text = "auto") ∧
    (∀ ws : List String, 5 ≤ ws.length → (∀ w ∈ ws, w ∈ englishWords) →
      10 ≤ (stripL (joinWords ws).data).length →
      DashboardUtils.detect_language (joinWords ws) = "en") ∧
    (∀ ws : List String, 5 ≤ ws.length → (∀ w ∈ ws, w ∈ frenchWords) →
      10 ≤ (stripL (joinWords ws).data).length →
      DashboardUtils.detect_language (joinWords ws) = "fr") :=
  ⟨detect_short_auto, detect_pure_english, detect_pure_french⟩

/-- Witness for C9: a short text, a pure-English five-word text, and a
pure-French five-word text. -/
theorem C9_language_detector_properties_witness :
    DashboardUtils.detect_language "hi" = "auto" ∧
    DashboardUtils.detect_language (joinWords ["the", "and", "is", "you", "that"]) = "en" ∧
    DashboardUtils.detect_language (joinWords ["le", "la", "les", "et", "dans"]) = "fr" :=
  ⟨C9_language_detector_properties.1 "hi" (Or.inl (by decide)),
   C9_language_detector_properties.2.1 ["the", "and", "is", "you", "that"]
     (by decide) (by decide) (by decide),
   C9_language_detector_properties.2.2 ["le", "la", "les", "et", "dans"]
     (by decide) (by decide) (by decide)⟩

/-- Claim C10, counterexample: an HTTP-200 translation response that is
an EMPTY JSON object is falsy in Python (`if translation_result:`), so
contrary to the claim the orchestrator logs the stage `failed` (not
`completed`) and stores nothing under `results.translation`; extraction
still receives the raw text. -/
theorem C10_empty_response_counterexample :
    (ProcessArticleView.process_article_pipeline
        (DashboardModels.freshArticle "guerre dans le nord du pays")
        { translation := some [], ner := fun _ => none }).article.processed_json.translation
      = none ∧
    (⟨"translation", "failed", "Translation service unavailable"⟩ :
        DashboardModels.LogEntry) ∈
      (ProcessArticleView.process_article_pipeline
        (DashboardModels.freshArticle "guerre dans le nord du pays")
        { translation := some [], ner := fun _ => none }).logs ∧
    (⟨"translation", "completed", "Translation successful"⟩ :
        DashboardModels.LogEntry) ∉
      (ProcessArticleView.process_article_pipeline
        (DashboardModels.freshArticle "guerre dans le nord du pays")
        { translation := some [], ner := fun _ => none }).logs ∧
    (ProcessArticleView.process_article_pipeline
        (DashboardModels.freshArticle "guerre dans le nord du pays")
        { translation := some [], ner := fun _ => none }).textForNer
      = "guerre dans le nord du pays" := by
  refine ⟨rfl, by decide, by decide, rfl⟩

/-- Claim C10 (corrected): for a non-English article, when the
translation call succeeds and its response object is NON-EMPTY but lacks
the `translated_text` field, the orchestrator falls back to the raw text
as the NER input, still stores the malformed response under
`results.translation`, and logs the stage `completed`; the empty-object
response of the counterexample is instead treated as a failure. -/
theorem C10_missing_translated_text_falls_back
    (a : DashboardModels.Article) (svc : ProcessArticleView.Services)
    (resp : List (String × String))
    (hlang : ProcessArticleView.detect_article_language a.raw_text ≠ "en")
    (hsucc : svc.translation = some resp)
    (hne : resp.isEmpty = false)
    (hmiss : resp.find? (fun p => p.1 == "translated_text") = none) :
    (ProcessArticleView.process_article_pipeline a svc).textForNer = a.raw_text ∧
    (ProcessArticleView.process_article_pipeline a svc).article.processed_json.translation
      = some resp ∧
    (⟨"translation", "completed", "Translation successful"⟩ :
        DashboardModels.LogEntry) ∈
      (ProcessArticleView.process_article_pipeline a svc).logs := by
  unfold ProcessArticleView.process_article_pipeline
  rw [hsucc]
  dsimp only
  rw [if_pos hlang, hne]
  rw [show pyDictGetD resp "translated_text" a.raw_text = a.raw_text by
    rw [pyDictGetD, hmiss]]
  repeat' split <;> simp_all

/-- Witness for C10 with a non-empty response missing
`translated_text`. -/
theorem C10_missing_translated_text_falls_back_witness :
    (ProcessArticleView.process_article_pipeline
        (DashboardModels.freshArticle "la crise dans les regions")
        { translation := some [("detected_language", "fr")],
          ner := fun _ => none }).textForNer
      = "la crise dans les regions" ∧
    (ProcessArticleView.process_article_pipeline
        (DashboardModels.freshArticle "la crise dans les regions")
        { translation := some [("detected_language", "fr")],
          ner := fun _ => none }).article.processed_json.translation
      = some [("detected_language", "fr")] ∧
    (⟨"translation", "completed", "Translation successful"⟩ :
        DashboardModels.LogEntry) ∈
      (ProcessArticleView.process_article_pipeline
        (DashboardModels.freshArticle "la crise dans les regions")
        { translation := some [("detected_language", "fr")],
          ner := fun _ => none }).logs :=
  C10_missing_translated_text_falls_back
    (DashboardModels.freshArticle "la crise dans les regions")
    { translation := some [("detected_language", "fr")], ner := fun _ => none }
    [("detected_language", "fr")] (by decide) rfl rfl rfl
